import Mathlib

/-!
Shallow embedding of `src/esp32/CommonGround.ino`.

The sketch is a single polling loop on an ESP32: it reads a DHT11 sensor,
fetches the Open-Meteo weather API, publishes values to six Adafruit feeds,
and reacts to deliveries on the `fire` feed with a callback that echoes the
boolean (as 0/1) to the `alarm` feed and drives a buzzer.

Side effects (publishes, logs, buzzer, delays) are modelled as an ordered
event trace; the external collaborators (DHT read, HTTP fetch, JSON parse,
feed deliveries) are modelled as inputs to each iteration.  Floats are
modelled as rationals plus an explicit NaN.
-/

namespace CommonGround

/-- Model of an Arduino `float` as used by this sketch: NaN or a rational value. -/
inductive FloatV where
  | nan
  | val (q : ℚ)
deriving DecidableEq, Repr

/-- The `isnan` test used by the sketch. -/
def FloatV.isNan : FloatV → Bool
  | .nan => true
  | .val _ => false

/-- JSON documents as produced by the ArduinoJson collaborator`s `deserializeJson`. -/
inductive Json where
  | null
  | num (q : ℚ)
  | str (s : String)
  | boolean (b : Bool)
  | arr (elems : List Json)
  | obj (fields : List (String × Json))

/-- ArduinoJson `operator[]` with a string key: member lookup on an object;
any other variant (including null) yields the null variant. -/
def Json.get (j : Json) (key : String) : Json :=
  match j with
  | .obj fields =>
    match fields.lookup key with
    | some v => v
    | none => .null
  | _ => .null

/-- ArduinoJson conversion of a variant to `float` (the implicit conversion in
`float apiTemp = doc[...]` and `apiHum = humidityArray[...]`), modelled
contract: a numeric variant yields its value, every other variant (absent
member, null, string, boolean, array, object) yields the default 0. -/
def Json.toFloat : Json → ℚ
  | .num q => q
  | _ => 0

/-- Whether a JSON variant is numeric. -/
def Json.isNum : Json → Bool
  | .num _ => true
  | _ => false

/-- ArduinoJson conversion of a variant to `JsonArray` (the binding
`JsonArray humidityArray = doc[...]`): a non-array variant gives the null
array, for which `isNull()` is true in the sketch`s guard. -/
def Json.asArray : Json → Option (List Json)
  | .arr elems => some elems
  | _ => none

/-- One observable side effect of the sketch, in program order. -/
inductive Event where
  | serialBegin
  | dhtBegin
  | pinModeOut
  | ioConnectStart
  | subscribeFire
  | pumpRun
  | sensorRead
  | httpGet
  | publish (feed : String) (value : FloatV)
  | log (msg : String)
  | logLocalReading (t h : FloatV)
  | logApiWeather (t : ℚ) (h : FloatV)
  | toneOn
  | toneOff
  | delayMs (ms : ℕ)
deriving DecidableEq, Repr

/-- The `fireChanged` callback (lines 38-50): sets `fireDetected` from the
delivered boolean, logs the change, saves the integer cast (1 or 0) to the
`alarm` feed, and switches the buzzer.  Returns the new `fireDetected`
together with the emitted events. -/
def fireChanged (data : Bool) : Bool × List Event :=
  (data,
   [Event.log ("Fire feed changed: " ++ (if data then "ON" else "OFF")),
    Event.publish "alarm" (FloatV.val (if data then 1 else 0)),
    if data then Event.toneOn else Event.toneOff])

/-- The event pump `io.run()`: delivers each queued `fire`-feed message in
arrival order to the registered `fireChanged` callback. -/
def processDeliveries (fireDetected : Bool) : List Bool → Bool × List Event
  | [] => (fireDetected, [])
  | d :: ds =>
    let fired := fireChanged d
    let rest := processDeliveries fired.1 ds
    (rest.1, fired.2 ++ rest.2)

/-- Result of `dht.readTemperature()` and `dht.readHumidity()` for one iteration. -/
structure SensorReading where
  temp : FloatV
  hum : FloatV
deriving DecidableEq, Repr

/-- The local DHT11 block of `loop()` (lines 71-81): publish both values when
neither read is NaN, otherwise log a failure. -/
def sensorEvents (s : SensorReading) : List Event :=
  Event.sensorRead ::
  (if !s.temp.isNan && !s.hum.isNan then
    [Event.logLocalReading s.temp s.hum,
     Event.publish "temperature" s.temp,
     Event.publish "humidity" s.hum]
  else
    [Event.log "Failed to read from DHT sensor!"])

/-- Result of the HTTP GET for one iteration: the status code, and the JSON
parse result of the body (`none` when `deserializeJson` reports an error). -/
structure WeatherResp where
  code : Int
  parsed : Option Json

/-- The `apiHum` computation of the weather block (lines 97-100): starts as
NAN and becomes the float conversion of the last array element only when the
array is non-null and non-empty. -/
def lastHumidity (humidityArray : Option (List Json)) : FloatV :=
  match humidityArray with
  | some elems =>
    if 0 < elems.length then
      FloatV.val (((elems.get? (elems.length - 1)).getD Json.null).toFloat)
    else FloatV.nan
  | none => FloatV.nan

/-- The Open-Meteo block of `loop()` (lines 83-112): on status 200 and a
successful parse, extract `current_weather.temperature`, extract the last
element of `hourly.relativehumidity_2m` as the humidity (NaN when the array
is null or empty), publish the temperature unconditionally and the humidity
only when it is not NaN; otherwise log the parse error or the status code. -/
def weatherEvents (w : WeatherResp) : List Event :=
  Event.httpGet ::
  (if w.code = 200 then
    match w.parsed with
    | some doc =>
      let apiTemp : ℚ := ((doc.get "current_weather").get "temperature").toFloat
      let apiHum : FloatV :=
        lastHumidity (((doc.get "hourly").get "relativehumidity_2m").asArray)
      Event.logApiWeather apiTemp apiHum ::
      Event.publish "api_temp" (FloatV.val apiTemp) ::
      (if !apiHum.isNan then [Event.publish "api_humidity" apiHum] else [])
    | none => [Event.log "JSON parse error"]
  else
    [Event.log ("Failed to fetch weather, code: " ++ toString w.code)])

/-- External inputs consumed by one iteration of `loop()`. -/
structure IterInput where
  deliveries : List Bool
  sensor : SensorReading
  weather : WeatherResp

/-- One iteration of `loop()` (lines 68-115): pump the channel, run the DHT11
block, run the weather block, then the fixed `delay(10000)`. -/
def loopBody (fireDetected : Bool) (inp : IterInput) : Bool × List Event :=
  let pumped := processDeliveries fireDetected inp.deliveries
  (pumped.1,
   Event.pumpRun :: pumped.2
     ++ sensorEvents inp.sensor
     ++ weatherEvents inp.weather
     ++ [Event.delayMs 10000])

/-- The unbounded repetition of `loop()` by the Arduino runtime: state and
event trace after the first n iterations. -/
def runTrace (inputs : ℕ → IterInput) (fireDetected : Bool) : ℕ → Bool × List Event
  | 0 => (fireDetected, [])
  | n + 1 =>
    let prev := runTrace inputs fireDetected n
    let it := loopBody prev.1 (inputs n)
    (it.1, prev.2 ++ it.2)

/-- AIO_CONNECTED from the AdafruitIO status enum (the threshold of the
`io.status() < AIO_CONNECTED` guard). -/
def AIO_CONNECTED : Int := 20

/-- The busy-poll while loop of `setup()` (lines 60-63): at successive poll
instants i, check `io.status()`; while below AIO_CONNECTED, print a dot and
`delay(500)`.  Fuel bounds the unfolding; `none` means the wait had not
finished within the given fuel (the source loop has no timeout of its own).
On exit, returns the exit instant and the events of the wait. -/
def connectPoll (status : ℕ → Int) : ℕ → ℕ → Option (ℕ × List Event)
  | 0, _ => none
  | fuel + 1, i =>
    if status i < AIO_CONNECTED then
      match connectPoll status fuel (i + 1) with
      | some r => some (r.1, Event.log "." :: Event.delayMs 500 :: r.2)
      | none => none
    else
      some (i, [])

/-- `setup()` (lines 52-66): serial, sensor and pin init, start the Adafruit
connection, busy-poll until connected, then subscribe `fireChanged` on the
`fire` feed.  `none` when the poll did not finish within the fuel. -/
def setupTrace (status : ℕ → Int) (fuel : ℕ) : Option (List Event) :=
  match connectPoll status fuel 0 with
  | some r =>
    some ([Event.serialBegin, Event.dhtBegin, Event.pinModeOut,
           Event.log "Connecting to Adafruit IO", Event.ioConnectStart]
          ++ r.2
          ++ [Event.log "Connected to Adafruit IO!", Event.subscribeFire])
  | none => none

/-- The values published to a given feed within an event trace, in order. -/
def feedValues (feed : String) : List Event → List FloatV
  | [] => []
  | Event.publish f v :: rest =>
    if f = feed then v :: feedValues feed rest else feedValues feed rest
  | _ :: rest => feedValues feed rest

/-- Number of buzzer actuations (`tone` or `noTone` calls) in a trace. -/
def toneCount : List Event → ℕ
  | [] => 0
  | Event.toneOn :: rest => toneCount rest + 1
  | Event.toneOff :: rest => toneCount rest + 1
  | _ :: rest => toneCount rest

/-- Concrete weather document used as a test vector: temperature 12, humidity
array [41, 42, 55]. -/
def sampleDoc : Json :=
  Json.obj
    [("current_weather", Json.obj [("temperature", Json.num 12)]),
     ("hourly", Json.obj [("relativehumidity_2m",
        Json.arr [Json.num 41, Json.num 42, Json.num 55])])]

/-- Concrete weather document whose humidity array is empty. -/
def sampleDocEmptyHum : Json :=
  Json.obj
    [("current_weather", Json.obj [("temperature", Json.num 12)]),
     ("hourly", Json.obj [("relativehumidity_2m", Json.arr [])])]

/-! Helper lemmas about the trace observers. -/

theorem feedValues_append (feed : String) (a b : List Event) :
    feedValues feed (a ++ b) = feedValues feed a ++ feedValues feed b := by
  induction a with
  | nil => rfl
  | cons e rest ih =>
    cases e <;> simp only [List.cons_append, List.append_eq, feedValues, ih]
    split <;> simp

theorem toneCount_append (a b : List Event) :
    toneCount (a ++ b) = toneCount a + toneCount b := by
  induction a with
  | nil => simp [toneCount]
  | cons e rest ih => cases e <;> simp [toneCount, ih] <;> omega

theorem feedValues_nil (feed : String) : feedValues feed [] = [] := rfl

theorem feedValues_cons_httpGet (feed : String) (l : List Event) :
    feedValues feed (Event.httpGet :: l) = feedValues feed l := rfl

theorem feedValues_cons_logApiWeather (feed : String) (t : ℚ) (h : FloatV)
    (l : List Event) :
    feedValues feed (Event.logApiWeather t h :: l) = feedValues feed l := rfl

theorem feedValues_publish_cons (feed f : String) (v : FloatV) (l : List Event) :
    feedValues feed (Event.publish f v :: l) =
      if f = feed then v :: feedValues feed l else feedValues feed l := rfl

theorem feedValues_fireChanged_alarm (d : Bool) :
    feedValues "alarm" (fireChanged d).2 = [FloatV.val (if d then 1 else 0)] := by
  cases d <;> simp [fireChanged, feedValues]

theorem feedValues_fireChanged_ne (feed : String) (h : feed ≠ "alarm") (d : Bool) :
    feedValues feed (fireChanged d).2 = [] := by
  have h' : ¬ ("alarm" = feed) := fun hh => h hh.symm
  cases d <;> simp [fireChanged, feedValues, h']

theorem feedValues_processDeliveries_ne (feed : String) (h : feed ≠ "alarm")
    (fd : Bool) (ds : List Bool) :
    feedValues feed (processDeliveries fd ds).2 = [] := by
  induction ds generalizing fd with
  | nil => rfl
  | cons d ds ih =>
    simp [processDeliveries, feedValues_append, feedValues_fireChanged_ne feed h, ih]

theorem feedValues_processDeliveries_alarm_length (fd : Bool) (ds : List Bool) :
    (feedValues "alarm" (processDeliveries fd ds).2).length = ds.length := by
  induction ds generalizing fd with
  | nil => rfl
  | cons d ds ih =>
    simp [processDeliveries, feedValues_append, feedValues_fireChanged_alarm, ih]

theorem toneCount_fireChanged (d : Bool) : toneCount (fireChanged d).2 = 1 := by
  cases d <;> rfl

theorem toneCount_processDeliveries (fd : Bool) (ds : List Bool) :
    toneCount (processDeliveries fd ds).2 = ds.length := by
  induction ds generalizing fd with
  | nil => rfl
  | cons d ds ih =>
    simp only [processDeliveries, toneCount_append, toneCount_fireChanged, ih,
      List.length_cons]
    omega

theorem feedValues_sensorEvents_ne (feed : String) (hT : feed ≠ "temperature")
    (hH : feed ≠ "humidity") (s : SensorReading) :
    feedValues feed (sensorEvents s) = [] := by
  have hT' : ¬ ("temperature" = feed) := fun hh => hT hh.symm
  have hH' : ¬ ("humidity" = feed) := fun hh => hH hh.symm
  unfold sensorEvents
  split <;> simp [feedValues, hT', hH']

theorem feedValues_weatherEvents_ne (feed : String) (h1 : feed ≠ "api_temp")
    (h2 : feed ≠ "api_humidity") (w : WeatherResp) :
    feedValues feed (weatherEvents w) = [] := by
  have h1' : ¬ ("api_temp" = feed) := fun hh => h1 hh.symm
  have h2' : ¬ ("api_humidity" = feed) := fun hh => h2 hh.symm
  unfold weatherEvents
  split
  · split
    · rw [feedValues_cons_httpGet, feedValues_cons_logApiWeather, feedValues_publish_cons,
        if_neg h1']
      split
      · rw [feedValues_publish_cons, if_neg h2', feedValues_nil]
      · rw [feedValues_nil]
    · rfl
  · rfl

theorem fireChanged_fst (d : Bool) : (fireChanged d).1 = d := rfl

theorem alarm_getLast_processDeliveries (fd : Bool) (ds : List Bool) (h : ds ≠ []) :
    (feedValues "alarm" (processDeliveries fd ds).2).getLast? =
      some (FloatV.val (if (processDeliveries fd ds).1 then 1 else 0)) := by
  induction ds generalizing fd with
  | nil => exact absurd rfl h
  | cons d ds ih =>
    by_cases hds : ds = []
    · subst hds
      cases d <;> rfl
    · have hlast := ih d hds
      have hne : feedValues "alarm" (processDeliveries d ds).2 ≠ [] := by
        intro hnil
        have hlen := feedValues_processDeliveries_alarm_length d ds
        rw [hnil] at hlen
        have : ds.length = 0 := by simpa using hlen.symm
        exact hds (List.length_eq_zero.mp this)
      simp only [processDeliveries, feedValues_append, feedValues_fireChanged_alarm,
        fireChanged_fst]
      rw [List.getLast?_append_of_ne_nil _ hne, hlast]

theorem feedValues_cons_pumpRun (feed : String) (l : List Event) :
    feedValues feed (Event.pumpRun :: l) = feedValues feed l := rfl

theorem feedValues_delay (feed : String) :
    feedValues feed [Event.delayMs 10000] = [] := rfl

theorem loopBody_snd_eq (fd : Bool) (inp : IterInput) :
    (loopBody fd inp).2
      = Event.pumpRun :: ((processDeliveries fd inp.deliveries).2
          ++ (sensorEvents inp.sensor
            ++ (weatherEvents inp.weather ++ [Event.delayMs 10000]))) := by
  simp [loopBody]

theorem feedValues_loopBody_alarm (fd : Bool) (inp : IterInput) :
    feedValues "alarm" (loopBody fd inp).2 =
      feedValues "alarm" (processDeliveries fd inp.deliveries).2 := by
  rw [loopBody_snd_eq, feedValues_cons_pumpRun, feedValues_append, feedValues_append,
    feedValues_append,
    feedValues_sensorEvents_ne "alarm" (by decide) (by decide),
    feedValues_weatherEvents_ne "alarm" (by decide) (by decide),
    feedValues_delay]
  simp

theorem feedValues_loopBody_api (feed : String) (hA : feed ≠ "alarm")
    (hT : feed ≠ "temperature") (hH : feed ≠ "humidity")
    (fd : Bool) (ds : List Bool) (s : SensorReading) (w : WeatherResp) :
    feedValues feed (loopBody fd ⟨ds, s, w⟩).2 = feedValues feed (weatherEvents w) := by
  rw [loopBody_snd_eq, feedValues_cons_pumpRun, feedValues_append, feedValues_append,
    feedValues_append,
    feedValues_processDeliveries_ne feed hA,
    feedValues_sensorEvents_ne feed hT hH,
    feedValues_delay]
  simp

/-! The claims. -/

/-- C5: the fire callback does not deduplicate: every delivered update saves
the integer cast to the alarm feed and drives the buzzer, so the delivery
sequence false, true, true, false yields exactly 4 alarm publishes and 4
actuations, not the 2 value changes. -/
theorem c5_fire_callback_every_delivery :
    (∀ (fd : Bool) (ds : List Bool),
      (feedValues "alarm" (processDeliveries fd ds).2).length = ds.length ∧
      toneCount (processDeliveries fd ds).2 = ds.length) ∧
    (feedValues "alarm" (processDeliveries false [false, true, true, false]).2).length = 4 ∧
    toneCount (processDeliveries false [false, true, true, false]).2 = 4 :=
  ⟨fun fd ds =>
    ⟨feedValues_processDeliveries_alarm_length fd ds, toneCount_processDeliveries fd ds⟩,
   feedValues_processDeliveries_alarm_length false [false, true, true, false],
   toneCount_processDeliveries false [false, true, true, false]⟩

/-- C6: each callback execution publishes to the alarm feed exactly the
integer cast of the fireDetected value it has just set; after any nonempty
burst of deliveries the last alarm value is the cast of the final
fireDetected; and the loop body outside of the pump never writes the alarm
feed. -/
theorem c6_alarm_mirrors_fireDetected :
    (∀ d : Bool,
      feedValues "alarm" (fireChanged d).2 =
        [FloatV.val (if (fireChanged d).1 then 1 else 0)]) ∧
    (∀ (fd : Bool) (ds : List Bool), ds ≠ [] →
      (feedValues "alarm" (processDeliveries fd ds).2).getLast? =
        some (FloatV.val (if (processDeliveries fd ds).1 then 1 else 0))) ∧
    (∀ (fd : Bool) (inp : IterInput),
      feedValues "alarm" (loopBody fd inp).2 =
        feedValues "alarm" (processDeliveries fd inp.deliveries).2) :=
  ⟨fun d => feedValues_fireChanged_alarm d,
   fun fd ds h => alarm_getLast_processDeliveries fd ds h,
   fun fd inp => feedValues_loopBody_alarm fd inp⟩

/-- Witness for C6 at the concrete delivery burst [true]. -/
theorem c6_witness :
    [true] ≠ ([] : List Bool) ∧
    (feedValues "alarm" (processDeliveries false [true]).2).getLast? =
      some (FloatV.val 1) :=
  ⟨by decide, c6_alarm_mirrors_fireDetected.2.1 false [true] (by decide)⟩

/-- C7: each loop iteration is the fixed sequence pump, sensor block, weather
block, then a fixed delay of 10000 ms that does not depend on the iteration
inputs (fixed-delay, not fixed-rate), and the iterations repeat unboundedly
by appending each body to the trace. -/
theorem c7_loop_order_and_fixed_delay :
    (∀ (fd : Bool) (inp : IterInput),
      (loopBody fd inp).2 =
        Event.pumpRun :: (processDeliveries fd inp.deliveries).2
          ++ sensorEvents inp.sensor ++ weatherEvents inp.weather
          ++ [Event.delayMs 10000]) ∧
    (∀ (fd : Bool) (inp : IterInput),
      (loopBody fd inp).2.getLast? = some (Event.delayMs 10000)) ∧
    (∀ (inputs : ℕ → IterInput) (fd : Bool) (n : ℕ),
      runTrace inputs fd (n + 1) =
        ((loopBody (runTrace inputs fd n).1 (inputs n)).1,
         (runTrace inputs fd n).2 ++ (loopBody (runTrace inputs fd n).1 (inputs n)).2)) :=
  ⟨fun fd inp => rfl,
   fun fd inp => by
    have h1 : (loopBody fd inp).2
        = (Event.pumpRun :: (processDeliveries fd inp.deliveries).2
            ++ sensorEvents inp.sensor ++ weatherEvents inp.weather)
          ++ [Event.delayMs 10000] := by
      simp [loopBody]
    rw [h1, List.getLast?_append]
    rfl,
   fun inputs fd n => rfl⟩

/-- C10: the weather block runs in every iteration whatever the sensor read
returned, and the values published to the api feeds do not depend on the
sensor reading. -/
theorem c10_sensor_weather_independent :
    (∀ (fd : Bool) (ds : List Bool) (s : SensorReading) (w : WeatherResp),
      Event.httpGet ∈ (loopBody fd ⟨ds, s, w⟩).2) ∧
    (∀ (fd : Bool) (ds : List Bool) (s1 s2 : SensorReading) (w : WeatherResp),
      feedValues "api_temp" (loopBody fd ⟨ds, s1, w⟩).2 =
        feedValues "api_temp" (loopBody fd ⟨ds, s2, w⟩).2 ∧
      feedValues "api_humidity" (loopBody fd ⟨ds, s1, w⟩).2 =
        feedValues "api_humidity" (loopBody fd ⟨ds, s2, w⟩).2) :=
  ⟨fun fd ds s w => by
    have hw : Event.httpGet ∈ weatherEvents w := by
      show Event.httpGet ∈ Event.httpGet :: _
      exact List.mem_cons_self _ _
    rw [loopBody_snd_eq]
    simp only [List.mem_cons, List.mem_append]
    exact Or.inr (Or.inr (Or.inr (Or.inl hw))),
   fun fd ds s1 s2 w =>
    ⟨(feedValues_loopBody_api "api_temp" (by decide) (by decide) (by decide)
        fd ds s1 w).trans
      (feedValues_loopBody_api "api_temp" (by decide) (by decide) (by decide)
        fd ds s2 w).symm,
     (feedValues_loopBody_api "api_humidity" (by decide) (by decide) (by decide)
        fd ds s1 w).trans
      (feedValues_loopBody_api "api_humidity" (by decide) (by decide) (by decide)
        fd ds s2 w).symm⟩⟩

theorem sensorEvents_nan (s : SensorReading)
    (h : (s.temp.isNan || s.hum.isNan) = true) :
    sensorEvents s = [Event.sensorRead, Event.log "Failed to read from DHT sensor!"] := by
  unfold sensorEvents
  have hc : ¬ ((!s.temp.isNan && !s.hum.isNan) = true) := by
    cases ht : s.temp.isNan <;> cases hh : s.hum.isNan <;> simp_all
  rw [if_neg hc]

theorem weatherEvents_non200 (w : WeatherResp) (hc : ¬ w.code = 200) :
    weatherEvents w =
      [Event.httpGet,
       Event.log ("Failed to fetch weather, code: " ++ toString w.code)] := by
  unfold weatherEvents
  rw [if_neg hc]

theorem feedValues_weatherEvents_apiTemp (w : WeatherResp) (doc : Json)
    (hc : w.code = 200) (hp : w.parsed = some doc) :
    feedValues "api_temp" (weatherEvents w) =
      [FloatV.val (((doc.get "current_weather").get "temperature").toFloat)] := by
  unfold weatherEvents
  split
  · split
    · rename_i doc2 heq
      rw [hp] at heq
      injection heq with h
      subst h
      rw [feedValues_cons_httpGet, feedValues_cons_logApiWeather, feedValues_publish_cons,
        if_pos rfl]
      split
      · rw [feedValues_publish_cons, if_neg (by decide), feedValues_nil]
      · rw [feedValues_nil]
    · rename_i heq
      rw [hp] at heq
      exact Option.noConfusion heq
  · rename_i hne
    exact absurd hc hne

theorem feedValues_weatherEvents_apiHum_of_nan (w : WeatherResp) (doc : Json)
    (hc : w.code = 200) (hp : w.parsed = some doc)
    (hn : lastHumidity (((doc.get "hourly").get "relativehumidity_2m").asArray)
      = FloatV.nan) :
    feedValues "api_humidity" (weatherEvents w) = [] := by
  unfold weatherEvents
  split
  · split
    · rename_i doc2 heq
      rw [hp] at heq
      injection heq with h
      subst h
      rw [feedValues_cons_httpGet, feedValues_cons_logApiWeather, feedValues_publish_cons,
        if_neg (by decide), hn, if_neg (by decide), feedValues_nil]
    · rename_i heq
      rw [hp] at heq
      exact Option.noConfusion heq
  · rename_i hne
    exact absurd hc hne

theorem feedValues_weatherEvents_apiHum_of_val (w : WeatherResp) (doc : Json) (q : ℚ)
    (hc : w.code = 200) (hp : w.parsed = some doc)
    (hv : lastHumidity (((doc.get "hourly").get "relativehumidity_2m").asArray)
      = FloatV.val q) :
    feedValues "api_humidity" (weatherEvents w) = [FloatV.val q] := by
  unfold weatherEvents
  split
  · split
    · rename_i doc2 heq
      rw [hp] at heq
      injection heq with h
      subst h
      rw [feedValues_cons_httpGet, feedValues_cons_logApiWeather, feedValues_publish_cons,
        if_neg (by decide), hv,
        if_pos (show (!(FloatV.val q).isNan) = true from rfl),
        feedValues_publish_cons, if_pos rfl, feedValues_nil]
    · rename_i heq
      rw [hp] at heq
      exact Option.noConfusion heq
  · rename_i hne
    exact absurd hc hne

theorem toFloat_of_not_num (j : Json) (h : j.isNum = false) : j.toFloat = 0 := by
  cases j <;> simp_all [Json.isNum, Json.toFloat]

/-- C1: when the weather response has status 200, parses, and its
hourly.relativehumidity_2m array is non-empty, the single value published to
the api_humidity feed in that iteration is the float conversion of the last
element of the array. -/
theorem c1_api_humidity_last_element :
    ∀ (fd : Bool) (ds : List Bool) (s : SensorReading) (w : WeatherResp)
      (doc : Json) (elems : List Json),
      w.code = 200 → w.parsed = some doc →
      ((doc.get "hourly").get "relativehumidity_2m").asArray = some elems →
      0 < elems.length →
      feedValues "api_humidity" (loopBody fd ⟨ds, s, w⟩).2 =
        [FloatV.val ((elems.getLast?.getD Json.null).toFloat)] := by
  intro fd ds s w doc elems hc hp ha hl
  have hv : lastHumidity (((doc.get "hourly").get "relativehumidity_2m").asArray)
      = FloatV.val ((elems.getLast?.getD Json.null).toFloat) := by
    rw [ha]
    rw [List.getLast?_eq_getElem?, ← List.get?_eq_getElem?]
    simp [lastHumidity, hl]
  rw [feedValues_loopBody_api "api_humidity" (by decide) (by decide) (by decide),
    feedValues_weatherEvents_apiHum_of_val w doc _ hc hp hv]

/-- Witness for C1: for a concrete response with humidity array [41, 42, 55]
the published api_humidity value is 55. -/
theorem c1_witness :
    feedValues "api_humidity"
        (loopBody false
          ⟨[], ⟨FloatV.val 20, FloatV.val 30⟩, ⟨200, some sampleDoc⟩⟩).2 =
      [FloatV.val 55] :=
  c1_api_humidity_last_element false [] ⟨FloatV.val 20, FloatV.val 30⟩
    ⟨200, some sampleDoc⟩ sampleDoc
    [Json.num 41, Json.num 42, Json.num 55] rfl rfl rfl (by decide)

/-- C2: when the weather response has status 200 and parses but the humidity
array is empty or absent, the temperature extracted from the document is
still published to api_temp while nothing is published to api_humidity: the
two sub-values have independent validity. -/
theorem c2_humidity_independent_validity :
    ∀ (fd : Bool) (ds : List Bool) (s : SensorReading) (w : WeatherResp)
      (doc : Json),
      w.code = 200 → w.parsed = some doc →
      (((doc.get "hourly").get "relativehumidity_2m").asArray = none ∨
       ((doc.get "hourly").get "relativehumidity_2m").asArray = some ([] : List Json)) →
      feedValues "api_temp" (loopBody fd ⟨ds, s, w⟩).2 =
        [FloatV.val (((doc.get "current_weather").get "temperature").toFloat)] ∧
      feedValues "api_humidity" (loopBody fd ⟨ds, s, w⟩).2 = [] := by
  intro fd ds s w doc hc hp hae
  have hn : lastHumidity (((doc.get "hourly").get "relativehumidity_2m").asArray)
      = FloatV.nan := by
    rcases hae with h | h <;> rw [h] <;> rfl
  constructor
  · rw [feedValues_loopBody_api "api_temp" (by decide) (by decide) (by decide),
      feedValues_weatherEvents_apiTemp w doc hc hp]
  · rw [feedValues_loopBody_api "api_humidity" (by decide) (by decide) (by decide),
      feedValues_weatherEvents_apiHum_of_nan w doc hc hp hn]

/-- Witness for C2 at a concrete response whose humidity array is []: the
temperature 12 is still published, api_humidity is not. -/
theorem c2_witness :
    feedValues "api_temp"
        (loopBody false
          ⟨[], ⟨FloatV.nan, FloatV.nan⟩, ⟨200, some sampleDocEmptyHum⟩⟩).2 =
      [FloatV.val 12] ∧
    feedValues "api_humidity"
        (loopBody false
          ⟨[], ⟨FloatV.nan, FloatV.nan⟩, ⟨200, some sampleDocEmptyHum⟩⟩).2 = [] :=
  c2_humidity_independent_validity false [] ⟨FloatV.nan, FloatV.nan⟩
    ⟨200, some sampleDocEmptyHum⟩ sampleDocEmptyHum rfl rfl (Or.inr rfl)

/-- C3: when either local sensor read is NaN, that iteration publishes
nothing to the temperature or humidity feeds and logs the read failure. -/
theorem c3_sensor_nan_no_publish :
    ∀ (fd : Bool) (ds : List Bool) (s : SensorReading) (w : WeatherResp),
      (s.temp.isNan || s.hum.isNan) = true →
      feedValues "temperature" (loopBody fd ⟨ds, s, w⟩).2 = [] ∧
      feedValues "humidity" (loopBody fd ⟨ds, s, w⟩).2 = [] ∧
      Event.log "Failed to read from DHT sensor!" ∈ (loopBody fd ⟨ds, s, w⟩).2 := by
  intro fd ds s w h
  refine ⟨?_, ?_, ?_⟩
  · rw [loopBody_snd_eq, feedValues_cons_pumpRun, feedValues_append, feedValues_append,
      feedValues_append,
      feedValues_processDeliveries_ne "temperature" (by decide),
      sensorEvents_nan s h,
      feedValues_weatherEvents_ne "temperature" (by decide) (by decide),
      feedValues_delay]
    simp [feedValues]
  · rw [loopBody_snd_eq, feedValues_cons_pumpRun, feedValues_append, feedValues_append,
      feedValues_append,
      feedValues_processDeliveries_ne "humidity" (by decide),
      sensorEvents_nan s h,
      feedValues_weatherEvents_ne "humidity" (by decide) (by decide),
      feedValues_delay]
    simp [feedValues]
  · rw [loopBody_snd_eq, sensorEvents_nan s h]
    simp

/-- Witness for C3 at a concrete NaN temperature reading. -/
theorem c3_witness :
    feedValues "temperature"
        (loopBody false ⟨[], ⟨FloatV.nan, FloatV.val 50⟩, ⟨200, none⟩⟩).2 = [] ∧
    feedValues "humidity"
        (loopBody false ⟨[], ⟨FloatV.nan, FloatV.val 50⟩, ⟨200, none⟩⟩).2 = [] ∧
    Event.log "Failed to read from DHT sensor!" ∈
      (loopBody false ⟨[], ⟨FloatV.nan, FloatV.val 50⟩, ⟨200, none⟩⟩).2 :=
  c3_sensor_nan_no_publish false [] ⟨FloatV.nan, FloatV.val 50⟩ ⟨200, none⟩ (by decide)

/-- C4: when the weather fetch returns a status other than 200 the iteration
publishes nothing to api_temp or api_humidity and logs a line carrying the
numeric status code. -/
theorem c4_non200_no_api_publish :
    ∀ (fd : Bool) (ds : List Bool) (s : SensorReading) (w : WeatherResp),
      w.code ≠ 200 →
      feedValues "api_temp" (loopBody fd ⟨ds, s, w⟩).2 = [] ∧
      feedValues "api_humidity" (loopBody fd ⟨ds, s, w⟩).2 = [] ∧
      Event.log ("Failed to fetch weather, code: " ++ toString w.code)
        ∈ (loopBody fd ⟨ds, s, w⟩).2 := by
  intro fd ds s w hc
  have hw := weatherEvents_non200 w hc
  refine ⟨?_, ?_, ?_⟩
  · rw [feedValues_loopBody_api "api_temp" (by decide) (by decide) (by decide), hw]
    rfl
  · rw [feedValues_loopBody_api "api_humidity" (by decide) (by decide) (by decide), hw]
    rfl
  · rw [loopBody_snd_eq, hw]
    simp

/-- Witness for C4 at status 404: no api publishes, and the log line carries
the code 404. -/
theorem c4_witness :
    feedValues "api_temp"
        (loopBody false ⟨[], ⟨FloatV.val 20, FloatV.val 30⟩, ⟨404, none⟩⟩).2 = [] ∧
    feedValues "api_humidity"
        (loopBody false ⟨[], ⟨FloatV.val 20, FloatV.val 30⟩, ⟨404, none⟩⟩).2 = [] ∧
    Event.log ("Failed to fetch weather, code: " ++ toString (404 : Int)) ∈
      (loopBody false ⟨[], ⟨FloatV.val 20, FloatV.val 30⟩, ⟨404, none⟩⟩).2 :=
  c4_non200_no_api_publish false [] ⟨FloatV.val 20, FloatV.val 30⟩ ⟨404, none⟩
    (by decide)

/-- C9: when the weather response has status 200 and parses, a publish to
api_temp always occurs, with the extracted value; when the
current_weather.temperature variant is absent or non-numeric, the published
value is the default 0. -/
theorem c9_api_temp_unconditional :
    ∀ (w : WeatherResp) (doc : Json), w.code = 200 → w.parsed = some doc →
      feedValues "api_temp" (weatherEvents w) =
        [FloatV.val (((doc.get "current_weather").get "temperature").toFloat)] ∧
      (((doc.get "current_weather").get "temperature").isNum = false →
        feedValues "api_temp" (weatherEvents w) = [FloatV.val 0]) := by
  intro w doc hc hp
  have ht := feedValues_weatherEvents_apiTemp w doc hc hp
  refine ⟨ht, fun hnum => ?_⟩
  rw [ht, toFloat_of_not_num _ hnum]

/-- Witness for C9 at a document with no current_weather member: the default
0 is published. -/
theorem c9_witness :
    feedValues "api_temp" (weatherEvents ⟨200, some (Json.obj [])⟩) =
      [FloatV.val 0] :=
  (c9_api_temp_unconditional ⟨200, some (Json.obj [])⟩ (Json.obj []) rfl rfl).2 rfl

theorem connectPoll_none_of_never (status : ℕ → Int)
    (h : ∀ i, status i < AIO_CONNECTED) :
    ∀ (fuel i : ℕ), connectPoll status fuel i = none := by
  intro fuel
  induction fuel with
  | zero => intro i; rfl
  | succ n ih =>
    intro i
    unfold connectPoll
    rw [if_pos (h i), ih (i + 1)]

theorem connectPoll_some_reached (status : ℕ → Int) :
    ∀ (fuel i : ℕ) (r : ℕ × List Event),
      connectPoll status fuel i = some r → AIO_CONNECTED ≤ status r.1 := by
  intro fuel
  induction fuel with
  | zero => intro i r hr; exact Option.noConfusion hr
  | succ n ih =>
    intro i r hr
    unfold connectPoll at hr
    by_cases hs : status i < AIO_CONNECTED
    · rw [if_pos hs] at hr
      cases hp : connectPoll status n (i + 1) with
      | none => rw [hp] at hr; exact Option.noConfusion hr
      | some r2 =>
        rw [hp] at hr
        injection hr with h
        subst h
        exact ih (i + 1) r2 hp
    · rw [if_neg hs] at hr
      injection hr with h
      subst h
      exact not_lt.mp hs

theorem connectPoll_wait_events (status : ℕ → Int) :
    ∀ (fuel i : ℕ) (r : ℕ × List Event),
      connectPoll status fuel i = some r →
      ∀ e ∈ r.2, e = Event.log "." ∨ e = Event.delayMs 500 := by
  intro fuel
  induction fuel with
  | zero => intro i r hr; exact Option.noConfusion hr
  | succ n ih =>
    intro i r hr
    unfold connectPoll at hr
    by_cases hs : status i < AIO_CONNECTED
    · rw [if_pos hs] at hr
      cases hp : connectPoll status n (i + 1) with
      | none => rw [hp] at hr; exact Option.noConfusion hr
      | some r2 =>
        rw [hp] at hr
        injection hr with h
        subst h
        intro e he
        rcases he with _ | ⟨_, he2⟩
        · exact Or.inl rfl
        · rcases he2 with _ | ⟨_, he3⟩
          · exact Or.inr rfl
          · exact ih (i + 1) r2 hp e he3
    · rw [if_neg hs] at hr
      injection hr with h
      subst h
      intro e he
      exact absurd he (List.not_mem_nil e)

/-- C8: setup busy-polls the connection status with a fixed 500 ms delay and
never reaches the fire-feed subscription (or the loop) before the status is
at least AIO_CONNECTED: if the status never reaches the connected state, no
amount of fuel lets setup finish; whenever setup does finish, the status was
reached at some poll instant, the subscription is the very last setup step,
and every event of the wait is just a dot log or a 500 ms delay. -/
theorem c8_setup_blocks_until_connected :
    (∀ (status : ℕ → Int) (fuel : ℕ),
      (∀ i, status i < AIO_CONNECTED) → setupTrace status fuel = none) ∧
    (∀ (status : ℕ → Int) (fuel : ℕ) (evs : List Event),
      setupTrace status fuel = some evs →
      (∃ i, AIO_CONNECTED ≤ status i) ∧
      evs.getLast? = some Event.subscribeFire) ∧
    (∀ (status : ℕ → Int) (fuel i : ℕ) (r : ℕ × List Event),
      connectPoll status fuel i = some r →
      ∀ e ∈ r.2, e = Event.log "." ∨ e = Event.delayMs 500) := by
  refine ⟨?_, ?_, fun status => connectPoll_wait_events status⟩
  · intro status fuel h
    unfold setupTrace
    rw [connectPoll_none_of_never status h fuel 0]
  · intro status fuel evs hse
    unfold setupTrace at hse
    cases hp : connectPoll status fuel 0 with
    | none => rw [hp] at hse; exact Option.noConfusion hse
    | some r =>
      rw [hp] at hse
      injection hse with h
      subst h
      refine ⟨⟨r.1, connectPoll_some_reached status fuel 0 r hp⟩, ?_⟩
      rw [List.getLast?_append]
      rfl

/-- Witness for C8: with a status source that never connects, setup does not
finish within fuel 3; and a concrete finished setup ends in the
subscription. -/
theorem c8_witness :
    setupTrace (fun _ : ℕ => (0 : Int)) 3 = none ∧
    (∃ i : ℕ, AIO_CONNECTED ≤ (fun _ : ℕ => (20 : Int)) i) ∧
    ((setupTrace (fun _ : ℕ => (20 : Int)) 1).getD []).getLast?
      = some Event.subscribeFire :=
  ⟨c8_setup_blocks_until_connected.1 (fun _ : ℕ => (0 : Int)) 3
      (fun i => (by decide : (0 : Int) < AIO_CONNECTED)),
   (c8_setup_blocks_until_connected.2.1 (fun _ : ℕ => (20 : Int)) 1
      (((setupTrace (fun _ : ℕ => (20 : Int)) 1).getD [])) rfl).1,
   (c8_setup_blocks_until_connected.2.1 (fun _ : ℕ => (20 : Int)) 1
      (((setupTrace (fun _ : ℕ => (20 : Int)) 1).getD [])) rfl).2⟩

end CommonGround
